import Mathlib

/-!
Shallow embedding of the Mongos proxy topology manager
(src/lib2/topologies/mongos.js) and verification of its specification.

Machine numbers are modelled as Nat where the source only ever holds
non-negative integers; the one place where a JavaScript number can become
NaN (the rotating selection index, via the expression
index % connectedProxies.length with length 0) is modelled explicitly by
the type JSIdx below.
-/

/-- Topology lifecycle states, mirroring the string constants
DISCONNECTED, CONNECTING, CONNECTED, DESTROYED of the source. -/
inductive TopState where
  | disconnected
  | connecting
  | connected
  | destroyed
deriving DecidableEq

/-- A JavaScript number used as the rotating selection index: either an
ordinary non-negative integer or NaN.  NaN arises from the source
expression (self.index + 1) % connectedProxies.length when the filtered
list is empty, because in JavaScript x % 0 is NaN; afterwards NaN
propagates through every arithmetic operation and every array access
arr[NaN] yields undefined. -/
inductive JSIdx where
  | num (n : Nat)
  | nan
deriving DecidableEq

/-- A proxy handle (a Server instance, an external collaborator).  Only
the attributes observed by the topology manager are modelled: name,
lastIsMasterMS (latency of the last successful ismaster), the result of
isConnected(), and the arbiterOnly field of lastIsMaster().  The id field
distinguishes physically distinct handle objects that share a name. -/
structure Server where
  id : Nat
  name : String
  lastIsMasterMS : Nat
  isConnected : Bool
  arbiterOnly : Bool
deriving DecidableEq

/-- Events emitted by the topology.  SDAM events carry the event name as a
string together with the payload fields the claims talk about (durationMS,
connectionId, and whether a failure object is attached); the reply document
of a successful heartbeat is abstracted away. -/
inductive TEvent where
  | joined (kind : String) (server : Server)
  | left (kind : String) (server : Server)
  | failed (server : Server)
  | connectEv
  | fullsetupEv
  | allEv
  | reconnectEv
  | topologyOpening (topologyId : Nat)
  | topologyClosed (topologyId : Nat)
  | sdamEvent (name : String) (durationMS : Option Nat) (connectionId : String) (hasFailure : Bool)
deriving DecidableEq

/-- The Mongos topology state: lifecycle state, the three proxy lists,
the authentication latch, the rotating index, the lower bound latency,
the monitor timer flag, plus the configuration read by the modelled code
paths (localThresholdMS, presence of a disconnectHandler, presence of
SDAM event listeners) and a log of emitted events. -/
structure Mongos where
  id : Nat
  state : TopState
  connectingProxies : List Server
  connectedProxies : List Server
  disconnectedProxies : List Server
  authenticating : Bool
  index : JSIdx
  timerActive : Bool
  ismaster : Option Server
  lowerBoundLatency : Nat
  localThresholdMS : Nat
  hasDisconnectHandler : Bool
  hasSDAMListeners : Bool
  events : List TEvent
  monitorStarted : Bool
deriving DecidableEq

/-- The exact integer value of Number.MAX_VALUE, the largest finite IEEE
754 double: (2 to the 53 minus 1) times 2 to the 971.  The constructor
initialises lowerBoundLatency to this value. -/
def jsNumberMaxValue : Nat := (2 ^ 53 - 1) * 2 ^ 971

/-- The Mongos constructor: disconnected state, empty proxy lists,
authenticating false, index 0, no timer, lowerBoundLatency initialised to
Number.MAX_VALUE. -/
def mongosInit (tid : Nat) (localThresholdMS : Nat) (hasHandler : Bool) (listeners : Bool) : Mongos :=
  { id := tid
    state := TopState.disconnected
    connectingProxies := []
    connectedProxies := []
    disconnectedProxies := []
    authenticating := false
    index := JSIdx.num 0
    timerActive := false
    ismaster := none
    lowerBoundLatency := jsNumberMaxValue
    localThresholdMS := localThresholdMS
    hasDisconnectHandler := hasHandler
    hasSDAMListeners := listeners
    events := []
    monitorStarted := false }

/-- The legal transition table of the source function stateTransition,
keyed by the current state. -/
def legalTransitions : TopState → List TopState
  | TopState.disconnected => [TopState.connecting, TopState.destroyed, TopState.disconnected]
  | TopState.connecting => [TopState.connecting, TopState.destroyed, TopState.connected, TopState.disconnected]
  | TopState.connected => [TopState.connected, TopState.disconnected, TopState.destroyed]
  | TopState.destroyed => [TopState.destroyed]

/-- stateTransition: move to the requested state when the pair is in the
legal table, otherwise log and leave the state untouched. -/
def stateTransition (cur new : TopState) : TopState :=
  if new ∈ legalTransitions cur then new else cur

/-- The transition table exactly as the claim states it, written from the
words of the specification rather than from the source, for comparison
with legalTransitions. -/
def specLegalTransition (cur new : TopState) : Bool :=
  match cur with
  | TopState.disconnected =>
      new == TopState.connecting || new == TopState.disconnected || new == TopState.destroyed
  | TopState.connecting =>
      new == TopState.connecting || new == TopState.connected
        || new == TopState.disconnected || new == TopState.destroyed
  | TopState.connected =>
      new == TopState.connected || new == TopState.disconnected || new == TopState.destroyed
  | TopState.destroyed => new == TopState.destroyed

/-- isConnected() of the topology: the connected list is non-empty. -/
def Mongos.isConnected (self : Mongos) : Bool :=
  decide (self.connectedProxies.length > 0)

/-- emitSDAMEvent: the source emits the event only when at least one
listener is registered; the model returns the singleton or empty list of
events appended to the log. -/
def emitSDAMEvent (self : Mongos) (e : TEvent) : List TEvent :=
  if self.hasSDAMListeners then [e] else []

/-- The filter step of pickProxy: retain the connected proxies whose
lastIsMasterMS is within lowerBoundLatency + localThresholdMS and whose
isConnected() is true. -/
def retainedProxies (self : Mongos) : List Server :=
  self.connectedProxies.filter (fun server =>
    decide (server.lastIsMasterMS ≤ self.lowerBoundLatency + self.localThresholdMS)
      && server.isConnected)

/-- pickProxy: filter the connected proxies, read the element at
index % length, then assign index := (index + 1) % length.  When the
filtered list is empty both expressions divide by zero, which in
JavaScript yields NaN: the returned element is undefined (none) and the
stored index becomes NaN.  Once the index is NaN every later call also
returns undefined, because arr[NaN] is undefined and NaN + 1 is NaN. -/
def pickProxy (self : Mongos) : Option Server × JSIdx :=
  let cp := retainedProxies self
  match self.index with
  | JSIdx.nan => (none, JSIdx.nan)
  | JSIdx.num i =>
    if cp.length = 0 then (none, JSIdx.nan)
    else (cp.get? (i % cp.length), JSIdx.num ((i + 1) % cp.length))

/-- One pass of a source removal loop such as
for i in 0..from.length: if from[i].name == proxy.name then from.splice(i, 1).
Because splice shifts the remaining elements left while the loop still
increments i, the element immediately following a removed element is never
examined. -/
def spliceRemoveByName : List Server → String → List Server
  | [], _ => []
  | [x], n => if x.name == n then [] else [x]
  | x :: y :: rest, n =>
    if x.name == n then y :: spliceRemoveByName rest n
    else x :: spliceRemoveByName (y :: rest) n

/-- moveServerFrom: run the removal loop by name over both lists, then
push the proxy onto the destination.  Returns the new (source,
destination) pair. -/
def moveServerFrom (f t : List Server) (proxy : Server) : List Server × List Server :=
  (spliceRemoveByName f proxy.name, spliceRemoveByName t proxy.name ++ [proxy])

/-- Outcome of one public operation dispatch.  forwarded means the call
reached handle.op(...); buffered means disconnectHandler.add(op, ...);
threwTypeError models the JavaScript TypeError raised by server[op](...)
when pickProxy returned undefined, so the callback is never invoked. -/
inductive OpOutcome where
  | destroyedErr
  | buffered (op : String)
  | noProxyErr
  | forwarded (op : String) (server : Server)
  | threwTypeError
deriving DecidableEq

/-- executeWriteOperation: pick a proxy and invoke server[op] on it with
no null check; a missing proxy raises a TypeError. -/
def executeWriteOperation (self : Mongos) (op : String) : OpOutcome × JSIdx :=
  match pickProxy self with
  | (some server, i) => (OpOutcome.forwarded op server, i)
  | (none, i) => (OpOutcome.threwTypeError, i)

/-- Mongos.prototype.insert: destroyed gate, buffered-offline gate (op
name "insert"), no-proxy gate, then executeWriteOperation. -/
def Mongos.insert (self : Mongos) : OpOutcome × JSIdx :=
  if self.state = TopState.destroyed then (OpOutcome.destroyedErr, self.index)
  else if !self.isConnected && self.hasDisconnectHandler then
    (OpOutcome.buffered "insert", self.index)
  else if !self.isConnected then (OpOutcome.noProxyErr, self.index)
  else executeWriteOperation self "insert"

/-- Mongos.prototype.update: identical gates; note the source buffers the
call under the op name "insert", not "update". -/
def Mongos.update (self : Mongos) : OpOutcome × JSIdx :=
  if self.state = TopState.destroyed then (OpOutcome.destroyedErr, self.index)
  else if !self.isConnected && self.hasDisconnectHandler then
    (OpOutcome.buffered "insert", self.index)
  else if !self.isConnected then (OpOutcome.noProxyErr, self.index)
  else executeWriteOperation self "update"

/-- Mongos.prototype.remove: identical gates; the source again buffers
under the op name "insert". -/
def Mongos.remove (self : Mongos) : OpOutcome × JSIdx :=
  if self.state = TopState.destroyed then (OpOutcome.destroyedErr, self.index)
  else if !self.isConnected && self.hasDisconnectHandler then
    (OpOutcome.buffered "insert", self.index)
  else if !self.isConnected then (OpOutcome.noProxyErr, self.index)
  else executeWriteOperation self "remove"

/-- Mongos.prototype.command: destroyed gate, then pickProxy first; a null
pick fails the callback with "no mongos proxy available" before the
disconnect handler is ever consulted.  The buffered branch of the source
tests server == null or !server.isConnected() after the null return, so
only the !server.isConnected() disjunct is reachable. -/
def Mongos.command (self : Mongos) : OpOutcome × JSIdx :=
  if self.state = TopState.destroyed then (OpOutcome.destroyedErr, self.index)
  else
    match pickProxy self with
    | (none, i) => (OpOutcome.noProxyErr, i)
    | (some server, i) =>
      if !server.isConnected && self.hasDisconnectHandler then (OpOutcome.buffered "command", i)
      else (OpOutcome.forwarded "command" server, i)

/-- Mongos.prototype.destroy: transition to destroyed, cancel the monitor
timer, call destroy() on every handle in connected and connecting (the
lists themselves are not cleared), and emit topologyClosed through
emitSDAMEvent.  The second component is the list of handles whose
destroy() was invoked by this call. -/
def Mongos.destroy (self : Mongos) : Mongos × List Server :=
  let s1 : Mongos :=
    { self with state := stateTransition self.state TopState.destroyed, timerActive := false }
  ({ s1 with events := s1.events ++ emitSDAMEvent s1 (TEvent.topologyClosed s1.id) },
   self.connectedProxies ++ self.connectingProxies)

/-- Result of Mongos.prototype.unref. -/
inductive UnrefOutcome where
  | threwReferenceError
  | completed
deriving DecidableEq

/-- Mongos.prototype.unref: the source first performs
stateTransition(this, DESTROYED) and then evaluates
self.connectedProxies.concat(self.connectingProxies) where the identifier
self is unbound in that function (there is no var self = this and no
module-level self), so the read raises a ReferenceError: the handles are
never unreffed and clearTimeout is never reached.  The model applies the
state transition and reports the throw. -/
def Mongos.unref (self : Mongos) : Mongos × UnrefOutcome :=
  ({ self with state := stateTransition self.state TopState.destroyed },
   UnrefOutcome.threwReferenceError)

/-- Result of pinging one proxy: the updated topology, the (possibly
updated) server handle, and whether the handle was destroyed. -/
structure PingOut where
  top : Mongos
  srv : Server
  srvDestroyed : Bool
deriving DecidableEq

/-- pingServer of the monitor tick: emit serverHeartbeatStarted, run
ismaster, and in the callback (with the given measured latency and error
flag): if the topology is destroyed, destroy the handle and stop;
otherwise first lower lowerBoundLatency to the handle's previous
lastIsMasterMS when smaller, then either (error) emit the SDAM failure
event - spelled serverHearbeatFailed in the source - move the handle from
connected to disconnected, emit left and destroy it, or (success) store
the fresh latency into lastIsMasterMS and emit serverHeartbeatSucceeded.
The reply document stored into the handle is abstracted away. -/
def pingServer (self : Mongos) (srv : Server) (latencyMS : Nat) (err : Bool) : PingOut :=
  let started := emitSDAMEvent self (TEvent.sdamEvent "serverHeartbeatStarted" none srv.name false)
  if self.state = TopState.destroyed then
    { top := { self with events := self.events ++ started }, srv := srv, srvDestroyed := true }
  else
    let lb := if self.lowerBoundLatency > srv.lastIsMasterMS then srv.lastIsMasterMS
              else self.lowerBoundLatency
    if err then
      let moved := moveServerFrom self.connectedProxies self.disconnectedProxies srv
      { top := { self with
                  lowerBoundLatency := lb
                  connectedProxies := moved.1
                  disconnectedProxies := moved.2
                  events := self.events ++ started
                    ++ emitSDAMEvent self (TEvent.sdamEvent "serverHearbeatFailed" (some latencyMS) srv.name true)
                    ++ [TEvent.left "mongos" srv] }
        srv := srv
        srvDestroyed := true }
    else
      { top := { self with
                  lowerBoundLatency := lb
                  events := self.events ++ started
                    ++ emitSDAMEvent self (TEvent.sdamEvent "serverHeartbeatSucceeded" (some latencyMS) srv.name false) }
        srv := { srv with lastIsMasterMS := latencyMS }
        srvDestroyed := false }

/-- Completion values of the auth fan-out callback: callback(null, true)
on the empty snapshot, callback(null, self) on success, and
callback(aggregate error, false) on failure. -/
inductive AuthCompletion where
  | okTrue
  | okSelf
  | fail (errs : List (String × String))
deriving DecidableEq

/-- Running state of the auth fan-out countdown. -/
structure AuthLoopState where
  count : Nat
  errors : List (String × String)
  completions : List AuthCompletion
  authenticating : Bool

/-- One per-server step of the fan-out loop of Mongos.prototype.auth.
Arbiters are skipped entirely: server.auth is not invoked on them, so the
per-server callback that decrements the countdown never runs for them.
For a non-arbiter the callback decrements count, records any error as
(name, err), and fires the completion callback exactly when count reaches
zero, resetting the authenticating flag there. -/
def authStep (st : AuthLoopState) (p : Server × Option String) : AuthLoopState :=
  if p.1.arbiterOnly then st
  else
    let c := st.count - 1
    let errs := match p.2 with
      | some e => st.errors ++ [(p.1.name, e)]
      | none => st.errors
    if c = 0 then
      { count := c
        errors := errs
        completions := st.completions
          ++ [if errs.isEmpty then AuthCompletion.okSelf else AuthCompletion.fail errs]
        authenticating := false }
    else { count := c, errors := errs, completions := st.completions, authenticating := st.authenticating }

/-- Observable result of one auth fan-out. -/
structure AuthRun where
  invoked : List String
  completions : List AuthCompletion
  authenticating : Bool
  errors : List (String × String)
  finalCount : Nat
deriving DecidableEq

/-- The fan-out portion of Mongos.prototype.auth over a snapshot of the
connected proxies; each snapshot entry is paired with the outcome its
server.auth call would report (none for success).  The countdown is
initialised to the full snapshot length - including arbiters - exactly as
var count = servers.length does in the source, and the per-server
callbacks are then delivered in snapshot order. -/
def Mongos.auth (servers : List (Server × Option String)) : AuthRun :=
  if servers.length = 0 then
    { invoked := [], completions := [AuthCompletion.okTrue], authenticating := false
      errors := [], finalCount := 0 }
  else
    let final := servers.foldl authStep
      { count := servers.length, errors := [], completions := [], authenticating := true }
    { invoked := (servers.filter (fun p => !p.1.arbiterOnly)).map (fun p => p.1.name)
      completions := final.completions
      authenticating := final.authenticating
      errors := final.errors
      finalCount := final.count }

/-- The event kinds a proxy handle can fire during initial connect. -/
inductive ConnEvent where
  | connect
  | close
  | timeout
  | error
  | parseError
deriving DecidableEq

/-- The block run at the end of handleInitialConnectEvent: when the
connecting list has become empty, transition to connected and emit
connect, fullsetup and all if any proxy is connected, and start the
topology monitor. -/
def checkInitialConnectDone (self : Mongos) : Mongos :=
  if self.connectingProxies.length = 0 then
    let s1 := if self.connectedProxies.length > 0 then
        { self with state := stateTransition self.state TopState.connected,
                    events := self.events ++ [TEvent.connectEv, TEvent.fullsetupEv, TEvent.allEv] }
      else self
    { s1 with monitorStarted := true }
  else self

/-- handleInitialConnectEvent: if destroyed, destroy the handle and stop.
On connect, record lastIsMaster, and if a handle with the same name is
already connected, destroy this handle, emit failed and return early -
without removing the handle from connectingProxies and without running the
completion check.  Otherwise swap to stable handlers, move the handle from
connecting to connected and emit joined.  On any failure event, move the
handle from connecting to disconnected and emit left and failed.  Both
non-early paths end with the completion check. -/
def handleInitialConnectEvent (self : Mongos) (server : Server) (ev : ConnEvent) : Mongos :=
  if self.state = TopState.destroyed then self
  else if ev = ConnEvent.connect then
    let s0 : Mongos := { self with ismaster := some server }
    if s0.connectedProxies.any (fun p => p.name == server.name) then
      { s0 with events := s0.events ++ [TEvent.failed server] }
    else
      let moved := moveServerFrom s0.connectingProxies s0.connectedProxies server
      checkInitialConnectDone
        { s0 with connectingProxies := moved.1, connectedProxies := moved.2,
                  events := s0.events ++ [TEvent.joined "mongos" server] }
  else
    let moved := moveServerFrom self.connectingProxies self.disconnectedProxies server
    checkInitialConnectDone
      { self with connectingProxies := moved.1, disconnectedProxies := moved.2,
                  events := self.events ++ [TEvent.left "mongos" server, TEvent.failed server] }

/-- Mongos.prototype.connect: transition to connecting, emit
topologyOpening, and register the freshly constructed seed handles in
connectingProxies (connectProxies concatenates them). -/
def Mongos.connect (self : Mongos) (seeds : List Server) : Mongos :=
  let s1 : Mongos := { self with state := stateTransition self.state TopState.connecting }
  { s1 with connectingProxies := s1.connectingProxies ++ seeds,
            events := s1.events ++ emitSDAMEvent s1 (TEvent.topologyOpening s1.id) }

/-- Deliver a list of initial-connect events in order. -/
def runInitialConnect (s : Mongos) (evs : List (Server × ConnEvent)) : Mongos :=
  evs.foldl (fun acc p => handleInitialConnectEvent acc p.1 p.2) s

/-- A baseline topology configuration used by the concrete scenarios. -/
def baseMongos : Mongos := mongosInit 1 15 false false

/-- A connected proxy whose last ismaster latency (100 ms) lies above the
eligibility window of lowerBoundLatency 5 + localThresholdMS 15. -/
def srvSlow : Server :=
  { id := 11, name := "s1:27017", lastIsMasterMS := 100, isConnected := true, arbiterOnly := false }

/-- A connected proxy whose last ismaster latency (10 ms) lies inside the
eligibility window. -/
def srvFast : Server :=
  { id := 12, name := "s2:27017", lastIsMasterMS := 10, isConnected := true, arbiterOnly := false }

/-- Topology whose only connected proxy is outside the latency window:
the retained list of pickProxy is empty. -/
def c2StateA : Mongos :=
  { baseMongos with state := TopState.connected, connectedProxies := [srvSlow],
                    lowerBoundLatency := 5 }

/-- The same topology after the empty-window pickProxy call (index now
NaN) once an eligible proxy is connected again. -/
def c2StateB : Mongos :=
  { c2StateA with connectedProxies := [srvFast], index := JSIdx.nan }

/-- Disconnected topology (no connected proxies) with a disconnectHandler
installed, as left by construction before any seed connects. -/
def c1StateBuffer : Mongos :=
  { mongosInit 2 15 true false with state := TopState.connecting }

/-- Connected topology whose single proxy fails the latency filter, so
pickProxy returns undefined while isConnected() is true. -/
def c1StateNullPick : Mongos :=
  { baseMongos with state := TopState.connected, connectedProxies := [srvSlow],
                    lowerBoundLatency := 5 }

/-- Connected topology with one eligible proxy, used to witness the
forwarding path of the dispatch gate. -/
def c1StateGood : Mongos :=
  { mongosInit 9 15 true false with state := TopState.connected,
                                    connectedProxies := [srvFast], lowerBoundLatency := 5 }

/-- Non-arbiter proxy used in the auth fan-out scenario. -/
def srvAuthA : Server :=
  { id := 31, name := "a:27017", lastIsMasterMS := 5, isConnected := true, arbiterOnly := false }

/-- Arbiter proxy (lastIsMaster().arbiterOnly is true). -/
def srvAuthB : Server :=
  { id := 32, name := "b:27017", lastIsMasterMS := 5, isConnected := true, arbiterOnly := true }

/-- Second non-arbiter proxy used in the auth fan-out scenario. -/
def srvAuthC : Server :=
  { id := 33, name := "c:27017", lastIsMasterMS := 5, isConnected := true, arbiterOnly := false }

/-- Connected topology with SDAM listeners, one connected proxy and an
active monitor timer, used for the destroy scenarios. -/
def c4State : Mongos :=
  { mongosInit 7 15 false true with state := TopState.connected,
                                    connectedProxies := [srvFast], timerActive := true }

/-- Two physically distinct handles sharing one name, adjacent in a list. -/
def dupA : Server :=
  { id := 41, name := "d:27017", lastIsMasterMS := 5, isConnected := true, arbiterOnly := false }

/-- Second handle with the same name as dupA. -/
def dupB : Server :=
  { id := 42, name := "d:27017", lastIsMasterMS := 6, isConnected := true, arbiterOnly := false }

/-- The handle being moved in the moveServerFrom scenario; it bears the
same name as dupA and dupB. -/
def dupC : Server :=
  { id := 43, name := "d:27017", lastIsMasterMS := 7, isConnected := true, arbiterOnly := false }

/-- Connected topology used for the heartbeat-failure ping scenario. -/
def c8State : Mongos :=
  { mongosInit 8 15 false true with state := TopState.connected,
                                    connectedProxies := [srvSlow, srvFast], lowerBoundLatency := 5 }

/-- Topology used as a concrete input for the monotonicity witness. -/
def c7State : Mongos :=
  { mongosInit 4 15 false false with state := TopState.connected, lowerBoundLatency := 5 }

/-- Connected topology with an active monitor timer, used for unref. -/
def c9State : Mongos :=
  { mongosInit 3 15 false false with
      state := TopState.connected, connectedProxies := [srvFast], timerActive := true }

/-- First seed handle for the duplicate-seed initial connect scenario. -/
def seedA1 : Server :=
  { id := 51, name := "localhost:30000", lastIsMasterMS := 5, isConnected := true, arbiterOnly := false }

/-- Second seed handle with the same host:port as seedA1. -/
def seedA2 : Server :=
  { id := 52, name := "localhost:30000", lastIsMasterMS := 5, isConnected := true, arbiterOnly := false }

/-- The topology right after connect() on the duplicate seed list. -/
def c10Start : Mongos := Mongos.connect (mongosInit 10 15 false true) [seedA1, seedA2]

/-- The topology after the first duplicate seed fired its connect event. -/
def c10Mid : Mongos := runInitialConnect c10Start [(seedA1, ConnEvent.connect)]

/-- The topology after both duplicate seeds fired their connect events. -/
def c10Final : Mongos :=
  runInitialConnect c10Start [(seedA1, ConnEvent.connect), (seedA2, ConnEvent.connect)]

/-- Transitioning to destroyed succeeds from every state. -/
theorem stateTransition_to_destroyed (t : TopState) :
    stateTransition t TopState.destroyed = TopState.destroyed := by
  cases t <;> rfl

/-- From destroyed, every requested transition leaves the state destroyed. -/
theorem stateTransition_destroyed_absorbs (t : TopState) :
    stateTransition TopState.destroyed t = TopState.destroyed := by
  cases t <;> rfl

/-- When the topology is not connected, pickProxy returns undefined and
sets the index to NaN. -/
theorem pickProxy_not_connected (s : Mongos) (h : s.isConnected = false) :
    pickProxy s = (none, JSIdx.nan) := by
  have hnil : s.connectedProxies = [] := by
    cases hcp : s.connectedProxies with
    | nil => rfl
    | cons a l => simp [Mongos.isConnected, hcp] at h
  have hret : retainedProxies s = [] := by simp [retainedProxies, hnil]
  simp only [pickProxy, hret]
  cases s.index <;> simp

/-- If pickProxy returns undefined, the updated index is NaN. -/
theorem pickProxy_none_nan (s : Mongos) (h : (pickProxy s).1 = none) :
    pickProxy s = (none, JSIdx.nan) := by
  rcases hidx : s.index with i | _
  · by_cases hlen : (retainedProxies s).length = 0
    · simp [pickProxy, hidx, hlen]
    · exfalso
      simp only [pickProxy, hidx, if_neg hlen] at h
      have hlt : i % (retainedProxies s).length < (retainedProxies s).length :=
        Nat.mod_lt _ (Nat.pos_of_ne_zero hlen)
      have hge := List.get?_eq_none.mp h
      omega
  · simp [pickProxy, hidx]

/-- Every proxy returned by pickProxy passed the filter, so its
isConnected() is true. -/
theorem pickProxy_some_connected (s : Mongos) (srv : Server) (i : JSIdx)
    (hp : pickProxy s = (some srv, i)) : srv.isConnected = true := by
  rcases hidx : s.index with j | _
  · by_cases hlen : (retainedProxies s).length = 0
    · simp [pickProxy, hidx, hlen] at hp
    · simp only [pickProxy, hidx, if_neg hlen] at hp
      have hget : (retainedProxies s).get? (j % (retainedProxies s).length) = some srv := by
        have := congrArg Prod.fst hp
        simpa using this
      have hmem : srv ∈ retainedProxies s := List.get?_mem hget
      unfold retainedProxies at hmem
      have hflt := (List.mem_filter.mp hmem).2
      simp only [Bool.and_eq_true] at hflt
      exact hflt.2
  · simp [pickProxy, hidx] at hp

/-- Claim C6: stateTransition moves to the requested state exactly when
the pair is in the legal table (Disconnected to Connecting, Disconnected
or Destroyed; Connecting to Connecting, Connected, Disconnected or
Destroyed; Connected to Connected, Disconnected or Destroyed; Destroyed
only to Destroyed); any other request leaves the state unmodified, and
once Destroyed the state stays Destroyed under every sequence of calls. -/
theorem stateTransition_legal_table_and_destroyed_absorbing :
    (∀ cur nxt, stateTransition cur nxt = (if specLegalTransition cur nxt then nxt else cur))
    ∧ (∀ cur nxt, stateTransition cur nxt = nxt ↔ specLegalTransition cur nxt = true)
    ∧ (∀ l : List TopState, List.foldl stateTransition TopState.destroyed l = TopState.destroyed) := by
  refine ⟨?_, ?_, ?_⟩
  · intro cur nxt
    cases cur <;> cases nxt <;> decide
  · intro cur nxt
    cases cur <;> cases nxt <;> decide
  · intro l
    induction l with
    | nil => rfl
    | cons x xs ih => rw [List.foldl_cons, stateTransition_destroyed_absorbs]; exact ih

/-- Claim C2: evaluation at the failing input.  With one connected proxy
outside the latency window the retained list is empty and pickProxy
returns undefined while storing index NaN; afterwards, even though the
retained list of the follow-up state is the non-empty [srvFast], pickProxy
still returns undefined instead of one of its handles, so a call made
while the retained list is empty does not leave selection functional. -/
theorem pickProxy_empty_window_poisons_index :
    pickProxy c2StateA = (none, JSIdx.nan)
    ∧ retainedProxies c2StateB = [srvFast]
    ∧ (pickProxy c2StateB).1 = none := by decide

/-- Claim C5: evaluation at the failing input.  Moving a handle named
d:27017 out of a list holding two adjacent entries of that name removes
only the first of them: the removal loop increments its index past the
element that slid into the removed slot, so one entry bearing the moved
name survives in the source list. -/
theorem moveServerFrom_adjacent_duplicate_survives :
    (moveServerFrom [dupA, dupB] [] dupC).1 = [dupB]
    ∧ dupB.name = dupC.name
    ∧ ((moveServerFrom [dupA, dupB] [] dupC).1.any fun p => p.name == dupC.name) = true
    ∧ (moveServerFrom [dupA, dupB] [] dupC).2 = [dupC] := by decide

/-- Claim C1: counterexample.  On a disconnected topology with a
disconnectHandler installed, command fails the callback with "no mongos
proxy available" instead of handing the call to the buffer; and on a
connected topology whose pickProxy returns undefined, insert throws a
TypeError instead of failing the callback with that error. -/
theorem command_disconnected_handler_not_buffered :
    Mongos.command c1StateBuffer = (OpOutcome.noProxyErr, JSIdx.nan)
    ∧ c1StateBuffer.isConnected = false
    ∧ c1StateBuffer.hasDisconnectHandler = true
    ∧ OpOutcome.noProxyErr ≠ OpOutcome.buffered "command"
    ∧ Mongos.insert c1StateNullPick = (OpOutcome.threwTypeError, JSIdx.nan)
    ∧ c1StateNullPick.isConnected = true
    ∧ (pickProxy c1StateNullPick).1 = none
    ∧ OpOutcome.threwTypeError ≠ OpOutcome.noProxyErr := by decide

/-- Claim C1 as amended: on a non-destroyed topology, insert, update and
remove buffer when disconnected with a handler (all three under the op
name "insert"), fail with "no mongos proxy available" when disconnected
without a handler, and otherwise forward to the picked proxy without a
null check, so an undefined pick raises a TypeError; command instead
always consults pickProxy first, turns a null pick into the callback
error "no mongos proxy available" even when a handler is present, and
forwards a successful pick. -/
theorem dispatch_gate_amended :
    ∀ s : Mongos, s.state ≠ TopState.destroyed →
      ((s.isConnected = false → s.hasDisconnectHandler = true →
          Mongos.insert s = (OpOutcome.buffered "insert", s.index)
          ∧ Mongos.update s = (OpOutcome.buffered "insert", s.index)
          ∧ Mongos.remove s = (OpOutcome.buffered "insert", s.index)
          ∧ Mongos.command s = (OpOutcome.noProxyErr, JSIdx.nan))
      ∧ (s.isConnected = false → s.hasDisconnectHandler = false →
          Mongos.insert s = (OpOutcome.noProxyErr, s.index)
          ∧ Mongos.update s = (OpOutcome.noProxyErr, s.index)
          ∧ Mongos.remove s = (OpOutcome.noProxyErr, s.index)
          ∧ Mongos.command s = (OpOutcome.noProxyErr, JSIdx.nan))
      ∧ (∀ (srv : Server) (i : JSIdx), pickProxy s = (some srv, i) → s.isConnected = true →
          Mongos.insert s = (OpOutcome.forwarded "insert" srv, i)
          ∧ Mongos.update s = (OpOutcome.forwarded "update" srv, i)
          ∧ Mongos.remove s = (OpOutcome.forwarded "remove" srv, i)
          ∧ Mongos.command s = (OpOutcome.forwarded "command" srv, i))
      ∧ ((pickProxy s).1 = none → s.isConnected = true →
          Mongos.insert s = (OpOutcome.threwTypeError, JSIdx.nan)
          ∧ Mongos.update s = (OpOutcome.threwTypeError, JSIdx.nan)
          ∧ Mongos.remove s = (OpOutcome.threwTypeError, JSIdx.nan)
          ∧ Mongos.command s = (OpOutcome.noProxyErr, JSIdx.nan))) := by
  intro s hs
  refine ⟨?_, ?_, ?_, ?_⟩
  · intro h1 h2
    have hp := pickProxy_not_connected s h1
    refine ⟨?_, ?_, ?_, ?_⟩ <;>
      simp [Mongos.insert, Mongos.update, Mongos.remove, Mongos.command, hs, h1, h2, hp]
  · intro h1 h2
    have hp := pickProxy_not_connected s h1
    refine ⟨?_, ?_, ?_, ?_⟩ <;>
      simp [Mongos.insert, Mongos.update, Mongos.remove, Mongos.command, hs, h1, h2, hp]
  · intro srv i hp hc
    have hsc := pickProxy_some_connected s srv i hp
    refine ⟨?_, ?_, ?_, ?_⟩ <;>
      simp [Mongos.insert, Mongos.update, Mongos.remove, Mongos.command,
            executeWriteOperation, hs, hc, hp, hsc]
  · intro hp hc
    have hpn := pickProxy_none_nan s hp
    refine ⟨?_, ?_, ?_, ?_⟩ <;>
      simp [Mongos.insert, Mongos.update, Mongos.remove, Mongos.command,
            executeWriteOperation, hs, hc, hpn]

/-- Witness for the amended dispatch gate at a concrete connected
topology with one eligible proxy. -/
theorem dispatch_gate_amended_witness :
    (c1StateGood.state ≠ TopState.destroyed
     ∧ pickProxy c1StateGood = (some srvFast, JSIdx.num 0)
     ∧ c1StateGood.isConnected = true)
    ∧ Mongos.insert c1StateGood = (OpOutcome.forwarded "insert" srvFast, JSIdx.num 0) :=
  ⟨⟨by decide, by decide, by decide⟩,
   ((dispatch_gate_amended c1StateGood (by decide)).2.2.1 srvFast (JSIdx.num 0)
      (by decide) (by decide)).1⟩

/-- Claim C4: counterexample.  On a topology with a topologyClosed
listener, the first destroy() emits topologyClosed once and a second
destroy() emits it again: two topologyClosed events in one lifetime. -/
theorem destroy_reemits_topologyClosed :
    (Mongos.destroy c4State).1.events = [TEvent.topologyClosed 7]
    ∧ (Mongos.destroy (Mongos.destroy c4State).1).1.events
        = [TEvent.topologyClosed 7, TEvent.topologyClosed 7] := by decide

/-- Claim C4 as amended: destroy() always leaves the state Destroyed with
the timer cancelled, never modifies the three proxy lists, and invokes
handle destruction on connected plus connecting; a repeated destroy()
changes nothing except the event log, to which it appends one more
topologyClosed whenever listeners are registered, so topologyClosed fires
once per destroy() call rather than at most once per lifetime. -/
theorem destroy_idempotent_state_amended :
    ∀ s : Mongos,
      ((Mongos.destroy s).1.state = TopState.destroyed)
      ∧ ((Mongos.destroy s).1.timerActive = false)
      ∧ ((Mongos.destroy s).1.connectingProxies = s.connectingProxies)
      ∧ ((Mongos.destroy s).1.connectedProxies = s.connectedProxies)
      ∧ ((Mongos.destroy s).1.disconnectedProxies = s.disconnectedProxies)
      ∧ ((Mongos.destroy s).2 = s.connectedProxies ++ s.connectingProxies)
      ∧ ((Mongos.destroy s).1.events
          = s.events ++ (if s.hasSDAMListeners then [TEvent.topologyClosed s.id] else []))
      ∧ ((Mongos.destroy (Mongos.destroy s).1).2 = s.connectedProxies ++ s.connectingProxies)
      ∧ ((Mongos.destroy (Mongos.destroy s).1).1.state = TopState.destroyed)
      ∧ ((Mongos.destroy (Mongos.destroy s).1).1.connectedProxies = s.connectedProxies)
      ∧ ((Mongos.destroy (Mongos.destroy s).1).1.connectingProxies = s.connectingProxies)
      ∧ ((Mongos.destroy (Mongos.destroy s).1).1.events
          = s.events ++ (if s.hasSDAMListeners then [TEvent.topologyClosed s.id] else [])
                     ++ (if s.hasSDAMListeners then [TEvent.topologyClosed s.id] else [])) := by
  intro s
  refine ⟨stateTransition_to_destroyed s.state, rfl, rfl, rfl, rfl, rfl, rfl, rfl,
          stateTransition_to_destroyed _, rfl, rfl, rfl⟩

/-- Claim C9: evaluation at the failing input.  unref() performs the
state transition to Destroyed and then throws a ReferenceError on the
unbound identifier self: the monitor timer stays active and the
connected handle is still present, nothing was unreffed. -/
theorem unref_throws_reference_error :
    (Mongos.unref c9State).2 = UnrefOutcome.threwReferenceError
    ∧ (Mongos.unref c9State).1.state = TopState.destroyed
    ∧ (Mongos.unref c9State).1.timerActive = true
    ∧ (Mongos.unref c9State).1.connectedProxies = [srvFast] := by decide

/-- Claim C7: lowerBoundLatency is initialised to Number.MAX_VALUE by the
constructor, never increases across a ping callback, and on a callback of
a non-destroyed topology equals min of its old value and the handle's
previous lastIsMasterMS; it is independent of the freshly measured
latency. -/
theorem lowerBoundLatency_monotone_from_previous :
    (∀ tid lt hh ls, (mongosInit tid lt hh ls).lowerBoundLatency = jsNumberMaxValue)
    ∧ (∀ (s : Mongos) (srv : Server) (lat : Nat) (err : Bool),
        (pingServer s srv lat err).top.lowerBoundLatency ≤ s.lowerBoundLatency)
    ∧ (∀ (s : Mongos) (srv : Server) (lat : Nat) (err : Bool), s.state ≠ TopState.destroyed →
        (pingServer s srv lat err).top.lowerBoundLatency = min s.lowerBoundLatency srv.lastIsMasterMS)
    ∧ (∀ (s : Mongos) (srv : Server) (lat lat2 : Nat) (err : Bool),
        (pingServer s srv lat err).top.lowerBoundLatency
          = (pingServer s srv lat2 err).top.lowerBoundLatency) := by
  refine ⟨fun tid lt hh ls => rfl, ?_, ?_, ?_⟩
  · intro s srv lat err
    by_cases hs : s.state = TopState.destroyed <;>
      cases err <;> simp [pingServer, hs] <;> split <;> omega
  · intro s srv lat err hs
    cases err <;> simp [pingServer, hs] <;> split <;> omega
  · intro s srv lat lat2 err
    by_cases hs : s.state = TopState.destroyed <;> cases err <;> simp [pingServer, hs]

/-- Witness for the lowerBoundLatency update at a concrete non-destroyed
topology: from previous lastIsMasterMS 100 and current bound 5 the new
bound is min 5 100. -/
theorem lowerBoundLatency_monotone_from_previous_witness :
    c7State.state ≠ TopState.destroyed
    ∧ (pingServer c7State srvSlow 3 false).top.lowerBoundLatency = min 5 100 :=
  ⟨by decide,
   lowerBoundLatency_monotone_from_previous.2.2.1 c7State srvSlow 3 false (by decide)⟩

/-- Claim C8: evaluation at the failing input.  When the ping of a
connected handle errors on a non-destroyed topology, the handle is moved
from connected to disconnected, left("mongos", handle) is emitted and the
handle is destroyed, but the SDAM failure event the monitor emits is
named serverHearbeatFailed - not serverHeartbeatFailed as the claim
requires - though it does carry durationMS, the failure and the
connectionId. -/
theorem heartbeatFailed_event_misspelled :
    (pingServer c8State srvSlow 7 true).top.events
      = [TEvent.sdamEvent "serverHeartbeatStarted" none "s1:27017" false,
         TEvent.sdamEvent "serverHearbeatFailed" (some 7) "s1:27017" true,
         TEvent.left "mongos" srvSlow]
    ∧ ("serverHearbeatFailed" ≠ "serverHeartbeatFailed")
    ∧ (pingServer c8State srvSlow 7 true).top.connectedProxies = [srvFast]
    ∧ (pingServer c8State srvSlow 7 true).top.disconnectedProxies = [srvSlow]
    ∧ (pingServer c8State srvSlow 7 true).srvDestroyed = true := by decide

/-- Claim C3: evaluation at the failing input.  Over a snapshot of three
connected proxies of which the middle one is an arbiter, auth is invoked
on exactly the two non-arbiters, but the countdown - initialised to the
full snapshot size 3 - only ever reaches 1, so even with both per-server
calls succeeding the completion callback never fires and the
authenticating latch is never reset; with no arbiter in the snapshot the
same fan-out completes with callback(null, self) and resets the latch. -/
theorem auth_arbiter_countdown_never_completes :
    (Mongos.auth [(srvAuthA, none), (srvAuthB, none), (srvAuthC, none)]).invoked
      = ["a:27017", "c:27017"]
    ∧ (Mongos.auth [(srvAuthA, none), (srvAuthB, none), (srvAuthC, none)]).completions = []
    ∧ (Mongos.auth [(srvAuthA, none), (srvAuthB, none), (srvAuthC, none)]).authenticating = true
    ∧ (Mongos.auth [(srvAuthA, none), (srvAuthB, none), (srvAuthC, none)]).finalCount = 1
    ∧ (Mongos.auth [(srvAuthA, none), (srvAuthC, none)]).completions = [AuthCompletion.okSelf]
    ∧ (Mongos.auth [(srvAuthA, none), (srvAuthC, none)]).authenticating = false
    ∧ (Mongos.auth [(srvAuthA, some "err"), (srvAuthC, none)]).completions
        = [AuthCompletion.fail [("a:27017", "err")]] := by decide

/-- Claim C10: when a connect event arrives for a handle whose name is
already present in the connected list, the handler destroys the handle
and emits failed but returns before the move and before the completion
check, so the handle is never removed from connectingProxies; in the
concrete duplicate-seed run, connectingProxies never reaches length 0,
the state stays Connecting and connect, fullsetup and all are never
emitted. -/
theorem duplicate_connect_blocks_connected_transition :
    (∀ (s : Mongos) (srv : Server), s.state ≠ TopState.destroyed →
        (s.connectedProxies.any fun p => p.name == srv.name) = true →
        handleInitialConnectEvent s srv ConnEvent.connect
          = { s with ismaster := some srv, events := s.events ++ [TEvent.failed srv] })
    ∧ (c10Final.connectingProxies = [seedA2]
       ∧ c10Final.state = TopState.connecting
       ∧ c10Final.monitorStarted = false
       ∧ c10Final.events
           = [TEvent.topologyOpening 10, TEvent.joined "mongos" seedA1, TEvent.failed seedA2]
       ∧ TEvent.connectEv ∉ c10Final.events
       ∧ TEvent.fullsetupEv ∉ c10Final.events
       ∧ TEvent.allEv ∉ c10Final.events) := by
  constructor
  · intro s srv hs hdup
    simp [handleInitialConnectEvent, hs, hdup]
  · decide

/-- Witness for the duplicate-connect branch at the concrete mid-run
state of the duplicate-seed scenario. -/
theorem duplicate_connect_blocks_connected_transition_witness :
    (c10Mid.state ≠ TopState.destroyed
     ∧ (c10Mid.connectedProxies.any fun p => p.name == seedA2.name) = true)
    ∧ handleInitialConnectEvent c10Mid seedA2 ConnEvent.connect
        = { c10Mid with ismaster := some seedA2,
                        events := c10Mid.events ++ [TEvent.failed seedA2] } :=
  ⟨⟨by decide, by decide⟩,
   duplicate_connect_blocks_connected_transition.1 c10Mid seedA2 (by decide) (by decide)⟩
